import Mathlib

/-!
Verification development for the Hdilg.life leave-record service.

The repository holds four iterations of the same Express server:
`src/server.js` (the Joi-validated iteration), and the three unnamed
iterations `src/unnamed/part_000`, `part_001`, `part_002`.  Below, each
JavaScript function, record list and request handler that the claims
touch is embedded as a Lean definition named after its source symbol,
suffixed with the iteration it comes from where iterations differ.

Modelling conventions:
* JavaScript `Date` parsing is modelled for the date-only ISO format
  `YYYY-MM-DD`, the only format occurring in the repository's data and
  the spec's data model (§3).  A date-only ISO string parses in JS to a
  UTC-midnight instant, so millisecond differences are exact multiples
  of 86400000 and `Math.floor((e - s) / 86400000)` equals the difference
  of calendar day numbers.  `parseDate` therefore returns the proleptic
  Gregorian day index of the date (shifted by a constant, which cancels
  in every difference), or `none` for a string that is not a valid
  `YYYY-MM-DD` calendar date (the `isNaN` case in the source).
* A JS `NaN` result is modelled as `none` of an `Option Int`.
* Request-body fields arrive from JSON; the handlers under study only
  ever accept string values (`typeof x !== 'string'` checks, Joi
  `string()`, express-validator on string fields), so a body is
  modelled as three `Option String` fields, `none` standing for an
  absent (or non-string, hence rejected/falsy) field.
* The reCAPTCHA verification HTTP call is modelled by its observable
  outcome `CaptchaOutcome`: either the axios promise rejects (network
  error / timeout — `CaptchaOutcome.err`) or it resolves with a
  `success` boolean and an optional `score` number (`Option ℚ`).
-/

namespace Hdilg

/-! ## Dates and the duration calculators -/

/-- Numeric value of an ASCII digit character. -/
def digitVal (c : Char) : Nat := c.toNat - 48

/-- Gregorian leap-year test, as used by JS `Date` for `YYYY-MM-DD` validity. -/
def isLeapYear (y : Nat) : Bool :=
  (y % 4 == 0 && y % 100 != 0) || (y % 400 == 0)

/-- Number of days in month `m` of year `y`. -/
def daysInMonth (y m : Nat) : Nat :=
  if m == 2 then (if isLeapYear y then 29 else 28)
  else if m == 4 || m == 6 || m == 9 || m == 11 then 30
  else 31

/-- Day index of the Gregorian calendar date `y-m-d` (civil-calendar day
numbering; shifted by a constant offset from the Unix epoch day, the shift
cancelling in every difference of two indices).  This is the standard
era/year-of-era civil algorithm, kept in `Nat` by shifting the year by 400
(one full 146097-day Gregorian cycle per 400 years). -/
def toDayIndex (y m d : Nat) : Nat :=
  let y1 := y + 400
  let y2 := if m ≤ 2 then y1 - 1 else y1
  let era := y2 / 400
  let yoe := y2 % 400
  let mp := (m + 9) % 12
  let doy := (153 * mp + 2) / 5 + (d - 1)
  let doe := yoe * 365 + yoe / 4 - yoe / 100 + doy
  era * 146097 + doe

/-- Model of `new Date(s)` on the repository's date strings: parses a strict
`YYYY-MM-DD` calendar date to its day index, `none` when the string is not a
valid calendar date in that format (JS `Invalid Date`, i.e. the `isNaN`
branch of `calcDays`). -/
def parseDate (s : String) : Option Nat :=
  match s.toList with
  | [y1, y2, y3, y4, '-', m1, m2, '-', d1, d2] =>
    if y1.isDigit && y2.isDigit && y3.isDigit && y4.isDigit
        && m1.isDigit && m2.isDigit && d1.isDigit && d2.isDigit then
      let y := ((digitVal y1 * 10 + digitVal y2) * 10 + digitVal y3) * 10 + digitVal y4
      let m := digitVal m1 * 10 + digitVal m2
      let d := digitVal d1 * 10 + digitVal d2
      if 1 ≤ m && m ≤ 12 && 1 ≤ d && d ≤ daysInMonth y m then
        some (toDayIndex y m d)
      else none
    else none
  | _ => none

/-- The guarded duration calculator, `calcDays` of `src/server.js` lines
135-140; the identical function appears in `part_000` lines 76-81 and
`part_002` lines 62-67: if either date is invalid (`isNaN`) or `e < s` the
result is `0`, otherwise `Math.floor((e - s) / 86400000) + 1`, which for
date-only ISO inputs is the day-index difference plus one. -/
def calcDays (start finish : String) : Int :=
  match parseDate start, parseDate finish with
  | some s, some e => if e < s then 0 else (e : Int) - (s : Int) + 1
  | _, _ => 0

/-- The unguarded duration calculator of `part_001` lines 18-22: no
`isNaN`/order guard, so an invalid date propagates `NaN` (modelled `none`)
and inverted dates yield a negative count. -/
def calcDays_part001 (start finish : String) : Option Int :=
  match parseDate start, parseDate finish with
  | some s, some e => some ((e : Int) - (s : Int) + 1)
  | _, _ => none

/-! ## Records and the stores -/

/-- A raw authored record, as listed in the `rawLeaves`/`leaves` array
literals of each iteration (before the `days` augmentation `.map`). -/
structure RawLeave where
  serviceCode : String
  idNumber : String
  name : String
  reportDate : String
  startDate : String
  endDate : String
  doctorName : String
  jobTitle : String
deriving DecidableEq

/-- A stored record after the `days` augmentation, for the iterations whose
`calcDays` always returns a number (`server.js`, `part_000`, `part_002`). -/
structure LeaveRecord where
  serviceCode : String
  idNumber : String
  name : String
  reportDate : String
  startDate : String
  endDate : String
  doctorName : String
  jobTitle : String
  days : Int
deriving DecidableEq

/-- A stored record of the `part_001` iteration, whose unguarded `calcDays`
can produce `NaN` (modelled as `days = none`). -/
structure LeaveRecord1 where
  serviceCode : String
  idNumber : String
  name : String
  reportDate : String
  startDate : String
  endDate : String
  doctorName : String
  jobTitle : String
  days : Option Int
deriving DecidableEq

/-- The `.map(l => ({ ...l, days: calcDays(l.startDate, l.endDate) }))`
augmentation of `server.js` line 168 (same in `part_000` line 92 and
`part_002` line 77). -/
def augment (l : RawLeave) : LeaveRecord :=
  LeaveRecord.mk l.serviceCode l.idNumber l.name l.reportDate l.startDate
    l.endDate l.doctorName l.jobTitle (calcDays l.startDate l.endDate)

/-- The same augmentation in `part_001` line 33, using its unguarded
calculator. -/
def augment_part001 (l : RawLeave) : LeaveRecord1 :=
  LeaveRecord1.mk l.serviceCode l.idNumber l.name l.reportDate l.startDate
    l.endDate l.doctorName l.jobTitle (calcDays_part001 l.startDate l.endDate)

/-- `rawLeaves` of `src/server.js` lines 159-167. -/
def serverRawLeaves : List RawLeave := [
  RawLeave.mk "GSL25021372778" "1088576044" "عبدالإله سليمان عبدالله الهديلج" "2025-02-24" "2025-02-09" "2025-02-24" "هدى مصطفى خضر دحبور" "استشاري",
  RawLeave.mk "GSL25021898579" "1088576044" "عبدالإله سليمان عبدالله الهديلج" "2025-03-26" "2025-02-25" "2025-03-26" "جمال راشد السر محمد احمد" "استشاري",
  RawLeave.mk "GSL25022385036" "1088576044" "عبدالإله سليمان عبدالله الهديلج" "2025-04-17" "2025-03-27" "2025-04-17" "جمال راشد السر محمد احمد" "استشاري",
  RawLeave.mk "GSL25022884602" "1088576044" "عبدالإله سليمان عبدالله الهديلج" "2025-05-15" "2025-04-18" "2025-05-15" "هدى مصطفى خضر دحبور" "استشاري",
  RawLeave.mk "GSL25023345012" "1088576044" "عبدالإله سليمان عبدالله الهديلج" "2025-06-12" "2025-05-16" "2025-06-12" "هدى مصطفى خضر دحبور" "استشاري",
  RawLeave.mk "GSL25062955824" "1088576044" "عبدالإله سليمان عبدالله الهديلج" "2025-07-11" "2025-06-13" "2025-07-11" "هدى مصطفى خضر دحبور" "استشاري",
  RawLeave.mk "GSL25071678945" "1088576044" "عبدالإله سليمان عبدالله الهديلج" "2025-07-12" "2025-07-12" "2025-07-25" "عبدالعزيز فهد هميجان الروقي" "استشاري"]

/-- The raw record list of `part_000` lines 84-91 (differs from
`server.js` only in one doctor-name spelling). -/
def part000RawLeaves : List RawLeave := [
  RawLeave.mk "GSL25021372778" "1088576044" "عبدالإله سليمان عبدالله الهديلج" "2025-02-24" "2025-02-09" "2025-02-24" "هدى مصطفى خضر دحبور" "استشاري",
  RawLeave.mk "GSL25021898579" "1088576044" "عبدالإله سليمان عبدالله الهديلج" "2025-03-26" "2025-02-25" "2025-03-26" "جمال راشد السر محمد احمد" "استشاري",
  RawLeave.mk "GSL25022385036" "1088576044" "عبدالإله سليمان عبدالله الهديلج" "2025-04-17" "2025-03-27" "2025-04-17" "جمال راشد السر محمد احمد" "استشاري",
  RawLeave.mk "GSL25022884602" "1088576044" "عبدالإله سليمان عبدالله الهديلج" "2025-05-15" "2025-04-18" "2025-05-15" "هدى مصطفى خضر دحبور" "استشاري",
  RawLeave.mk "GSL25023345012" "1088576044" "عبدالإله سليمان عبدالله الهديلج" "2025-06-12" "2025-05-16" "2025-06-12" "هدى مصطفى خضر دحبور" "استشاري",
  RawLeave.mk "GSL25062955824" "1088576044" "عبدالإله سليمان عبدالله الهديلج" "2025-07-11" "2025-06-13" "2025-07-11" "هدى مصطفى خضر دبحور" "استشاري",
  RawLeave.mk "GSL25071678945" "1088576044" "عبدالإله سليمان عبدالله الهديلج" "2025-07-12" "2025-07-12" "2025-07-25" "عبدالعزيز فهد هميجان الروقي" "استشاري"]

/-- The raw record list of `part_001` lines 26-32. -/
def part001RawLeaves : List RawLeave := [
  RawLeave.mk "GSL25021372778" "1088576044" "عبدالإله سليمان عبدالله الهديلج" "2025-02-24" "2025-02-09" "2025-02-24" "هدى مصطفى خضر دحبور" "استشاري",
  RawLeave.mk "GSL25021898579" "1088576044" "عبدالإله سليمان عبدالله الهديلج" "2025-03-26" "2025-02-25" "2025-03-26" "جمال راشد السر محمد احمد" "استشاري",
  RawLeave.mk "GSL25022385036" "1088576044" "عبدالإله سليمان عبدالله الهديلج" "2025-04-17" "2025-03-27" "2025-04-17" "جمال راشد السر محمد احمد" "استشاري",
  RawLeave.mk "GSL25022884602" "1088576044" "عبدالإله سليمان عبدالله الهديلج" "2025-04-18" "2025-04-18" "2025-05-15" "هدى مصطفى خضر دحبور" "استشاري",
  RawLeave.mk "GSL25023345012" "1088576044" "عبدالإله سليمان عبدالله الهديلج" "2025-05-16" "2025-05-16" "2025-06-12" "هدى مصطفى خضر دحبور" "استشاري",
  RawLeave.mk "GSL25062955824" "1088576044" "عبدالإله سليمان عبدالله الهديلج" "2025-06-13" "2025-06-13" "2025-07-11" "هدى مصطفى خضر دبحور" "استشاري",
  RawLeave.mk "GSL25071678945" "1088576044" "عبدالإله سليمان عبدالله الهديلج" "2025-07-12" "2025-07-12" "2025-07-25" "عبدالعزيز فهد هميجان الروقي" "استشاري"]

/-- The raw record list of `part_002` lines 70-76. -/
def part002RawLeaves : List RawLeave := [
  RawLeave.mk "GSL25021372778" "1088576044" "عبدالإله سليمان عبدالله الهديلج" "2025-02-24" "2025-02-09" "2025-02-24" "هدى مصطفى خضر دحبور" "استشاري",
  RawLeave.mk "GSL25021898579" "1088576044" "عبدالإله سليمان عبدالله الهديلج" "2025-03-26" "2025-02-25" "2025-03-26" "جمال راشد السر محمد احمد" "استشاري",
  RawLeave.mk "GSL25022385036" "1088576044" "عبدالإله سليمان عبدالله الهديلج" "2025-04-17" "2025-03-27" "2025-04-17" "جمال راشد السر محمد احمد" "استشاري",
  RawLeave.mk "GSL25022884602" "1088576044" "عبدالإله سليمان عبدالله الهديلج" "2025-04-18" "2025-04-18" "2025-05-15" "هدى مصطفى خضر دحبور" "استشاري",
  RawLeave.mk "GSL25023345012" "1088576044" "عبدالإله سليمان عبدالله الهديلج" "2025-05-16" "2025-05-16" "2025-06-12" "هدى مصطفى خضر دحبور" "استشاري",
  RawLeave.mk "GSL25062955824" "1088576044" "عبدالإله سليمان عبدالله الهديلج" "2025-06-13" "2025-06-13" "2025-07-11" "هدى مصطفى خضر دبحور" "استشاري",
  RawLeave.mk "GSL25071678945" "1088576044" "عبدالإله سليمان عبدالله الهديلج" "2025-07-12" "2025-07-12" "2025-07-31" "عبدالعزيز فهد الروقي" "استشاري"]

/-- `leaves` of `src/server.js` line 168. -/
def serverLeaves : List LeaveRecord := serverRawLeaves.map augment

/-- `leaves` of `part_000` line 92. -/
def part000Leaves : List LeaveRecord := part000RawLeaves.map augment

/-- `leaves` of `part_001` line 33 (unguarded calculator). -/
def part001Leaves : List LeaveRecord1 := part001RawLeaves.map augment_part001

/-- `leaves` of `part_002` line 77. -/
def part002Leaves : List LeaveRecord := part002RawLeaves.map augment

/-- The `leaves.find(l => l.serviceCode === serviceCode && l.idNumber ===
idNumber)` lookup of `server.js` line 192 (same expression in `part_000`
line 127, `part_001` line 44, `part_002` line 97). -/
def findOne (ls : List LeaveRecord) (serviceCode idNumber : String) : Option LeaveRecord :=
  ls.find? (fun l => l.serviceCode == serviceCode && l.idNumber == idNumber)

/-! ## Request bodies and the three validator iterations -/

/-- An inbound JSON body for `POST /api/leave`.  A field is `some s` when
the JSON carries the string `s` there and `none` when the field is absent
(or carries a non-string value, which every validator below rejects and
which is falsy for the `part_000` captcha guard when relevant, i.e. for
`undefined`/`null`). -/
structure ReqBody where
  serviceCode : Option String
  idNumber : Option String
  captchaToken : Option String
deriving DecidableEq

/-- Membership in the regex class `[A-Za-z0-9]`.  `Char.isAlpha` and
`Char.isDigit` are exactly the ASCII ranges of the class. -/
def isAlnum (c : Char) : Bool := c.isAlpha || c.isDigit

/-- The manual `serviceCode` test of `part_000` lines 100-101 and
`part_002` lines 89-90: `typeof serviceCode === 'string'` (the `some`
case) and `/^[A-Za-z0-9]{8,20}$/.test(serviceCode)`. -/
def manualServiceCodeOk (s : String) : Bool :=
  8 ≤ s.length && s.length ≤ 20 && s.toList.all isAlnum

/-- The manual `idNumber` test of `part_000` lines 102-103 and `part_002`
lines 91-92: `/^[0-9]{10}$/.test(idNumber)`. -/
def manualIdOk (s : String) : Bool :=
  s.length == 10 && s.toList.all Char.isDigit

/-- `Joi.string().alphanum().min(8).max(20).required()` of `server.js`
line 173: a present string (the `some` case at the call site), non-empty
(Joi strings reject `''` by default), all characters in `[a-zA-Z0-9]`,
length between 8 and 20. -/
def joiServiceCodeOk (s : String) : Bool :=
  s != "" && s.toList.all isAlnum && 8 ≤ s.length && s.length ≤ 20

/-- `Joi.string().pattern(/^[0-9]{10}$/).required()` of `server.js`
line 174. -/
def joiIdOk (s : String) : Bool :=
  s != "" && s.length == 10 && s.toList.all Char.isDigit

/-- `Joi.string().required()` of `server.js` line 175 applied to
`captchaToken`: a present, non-empty string. -/
def joiCaptchaOk (t : Option String) : Bool :=
  match t with
  | some s => s != ""
  | none => false

/-- Acceptance of the whole body by the manual-regex validator of
`part_000` lines 99-106 / `part_002` lines 88-95 (`captchaToken` is not
validated there). -/
def manualAccepts (b : ReqBody) : Bool :=
  match b.serviceCode, b.idNumber with
  | some sc, some id => manualServiceCodeOk sc && manualIdOk id
  | _, _ => false

/-- Acceptance of the whole body by the `leaveSchema` Joi object of
`server.js` lines 172-176 (all three keys required). -/
def joiAccepts (b : ReqBody) : Bool :=
  match b.serviceCode, b.idNumber, b.captchaToken with
  | some sc, some id, tok => joiServiceCodeOk sc && joiIdOk id && joiCaptchaOk tok
  | _, _, _ => false

/-- Model of validator.js `isNumeric` with default options, as invoked by
`part_001` line 38: the language `[+-]?([0-9]*[.])?[0-9]+`. -/
def isNumericJS (s : String) : Bool :=
  let cs := s.toList
  let cs1 := match cs with
    | c :: rest => if c == '+' || c == '-' then rest else c :: rest
    | [] => []
  match cs1.dropWhile Char.isDigit with
  | [] => cs1 != []
  | '.' :: rest => rest != [] && rest.all Char.isDigit
  | _ => false

/-- Model of JS `String.prototype.trim` as applied by the `.trim()`
sanitizer of `part_001`: removal of leading and trailing whitespace. -/
def jsTrim (s : String) : String :=
  String.mk (((s.toList.dropWhile Char.isWhitespace).reverse.dropWhile
    Char.isWhitespace).reverse)

/-- Acceptance by the express-validator chain of `part_001` lines 36-41:
each field is first sanitized with `.trim()`, then `serviceCode` must have
length 8-20 and match `/^[A-Za-z0-9]+$/`, and `idNumber` must have length
exactly 10 and satisfy `isNumeric`.  A missing field fails its
validators. -/
def evAccepts (b : ReqBody) : Bool :=
  match b.serviceCode, b.idNumber with
  | some sc, some id =>
    let sc1 := jsTrim sc
    let id1 := jsTrim id
    8 ≤ sc1.length && sc1.length ≤ 20 && sc1 != "" && sc1.toList.all isAlnum
      && id1.length == 10 && isNumericJS id1
  | _, _ => false

/-- The canonical accepted language, written from the spec's words (§4.3):
`serviceCode` a string matching the regular expression `[A-Za-z0-9]` eight
to twenty times, anchored, and `idNumber` a string of exactly ten digits.
This is the spec-side comparator for the refinement claim, not an
embedding of any source function. -/
def canonicalAccepts (b : ReqBody) : Bool :=
  match b.serviceCode, b.idNumber with
  | some sc, some id =>
    (8 ≤ sc.length && sc.length ≤ 20 && sc.toList.all isAlnum)
      && (id.length == 10 && id.toList.all Char.isDigit)
  | _, _ => false

/-! ## Captcha verification and the request handlers -/

/-- Observable outcome of the axios call to the reCAPTCHA `siteverify`
endpoint: the promise rejects (network error or the configured timeout) or
resolves with a `success` flag and an optional numeric `score`. -/
inductive CaptchaOutcome where
  | ok (success : Bool) (score : Option ℚ)
  | err
deriving DecidableEq

/-- The threshold 0.5 of the reCAPTCHA score checks, written as `mkRat`
so that comparisons against it evaluate; `halfRat_eq_div` shows it is
one half. -/
def halfRat : ℚ := mkRat 1 2

/-- `data.score !== undefined && data.score < 0.5` of `part_000` line 116. -/
def scoreBelowHalf (score : Option ℚ) : Bool :=
  match score with
  | some q => decide (q < halfRat)
  | none => false

/-- `data.success && data.score >= 0.5` of `server.js` line 150 (an
`undefined` score compares as `NaN >= 0.5`, i.e. false). -/
def scoreAtLeastHalf (score : Option ℚ) : Bool :=
  match score with
  | some q => decide (halfRat ≤ q)
  | none => false

/-- `verifyCaptcha` of `server.js` lines 142-155: `true` when no secret is
configured; on a resolved call, `data.success && data.score >= 0.5`; on a
rejected call (the `catch`), `false`. -/
def verifyCaptcha (secret : Bool) (o : CaptchaOutcome) : Bool :=
  if !secret then true
  else
    match o with
    | CaptchaOutcome.ok success score => success && scoreAtLeastHalf score
    | CaptchaOutcome.err => false

/-- An outbound record as serialized into a JSON response body.  The
`idNumber` key is `some` when the JSON object carries it and `none` when
it was stripped before serialization. -/
structure OutRecord where
  serviceCode : String
  idNumber : Option String
  name : String
  reportDate : String
  startDate : String
  endDate : String
  doctorName : String
  jobTitle : String
  days : Int
deriving DecidableEq

/-- The `const { idNumber: _, ...safeRecord } = record` destructuring of
`server.js` line 198 and the `({ idNumber, ...r }) => r` map of line 211:
the record with its `idNumber` key removed. -/
def redact (r : LeaveRecord) : OutRecord :=
  OutRecord.mk r.serviceCode none r.name r.reportDate r.startDate r.endDate
    r.doctorName r.jobTitle r.days

/-- Serialization of a record without redaction, as in the `part_000`/
`part_002` responses that return `record` directly. -/
def rawOut (r : LeaveRecord) : OutRecord :=
  OutRecord.mk r.serviceCode (some r.idNumber) r.name r.reportDate r.startDate
    r.endDate r.doctorName r.jobTitle r.days

/-- A JSON response of the service: HTTP status, the `success` flag, and
(when present) a `record` object or a `leaves` array. -/
structure Response where
  status : Nat
  success : Bool
  record : Option OutRecord
  leaves : Option (List OutRecord)
deriving DecidableEq

/-- The `POST /api/leave` handler of `server.js` lines 180-207: Joi
validation (failure → 400), `verifyCaptcha` (failure → 403), lookup
(no match → 404), else 200 with the redacted record. -/
def server_post (secret : Bool) (b : ReqBody) (cap : CaptchaOutcome) : Response :=
  match b.serviceCode, b.idNumber, b.captchaToken with
  | some sc, some id, some tok =>
    if joiServiceCodeOk sc && joiIdOk id && joiCaptchaOk (some tok) then
      if verifyCaptcha secret cap then
        match findOne serverLeaves sc id with
        | some r => Response.mk 200 true (some (redact r)) none
        | none => Response.mk 404 false none none
      else Response.mk 403 false none none
    else Response.mk 400 false none none
  | _, _, _ => Response.mk 400 false none none

/-- The `GET /api/leaves` handler of `server.js` lines 209-216: the full
store with every element redacted. -/
def server_get : Response :=
  Response.mk 200 true none (some (serverLeaves.map redact))

/-- The lookup tail of the `part_000` handler, lines 126-132: the matched
record is returned as-is (no redaction), otherwise 404. -/
def part000_lookup (sc id : String) : Response :=
  match findOne part000Leaves sc id with
  | some r => Response.mk 200 true (some (rawOut r)) none
  | none => Response.mk 404 false none none

/-- Truthiness of the `captchaToken` value in the `part_000` guard
`RECAPTCHA_SECRET && captchaToken` (line 109): a present non-empty string. -/
def tokenTruthy (t : Option String) : Bool :=
  match t with
  | some s => s != ""
  | none => false

/-- The `POST /api/leave` handler of `part_000` lines 95-133: manual regex
validation (failure → 400); then, only when a secret is configured AND the
body carries a truthy `captchaToken`, the reCAPTCHA call — a rejected
promise (the `catch`, line 120-123) → 500, a resolved call with
`!success` or a defined score below 0.5 → 403; otherwise the lookup. -/
def part000_post (secret : Bool) (b : ReqBody) (cap : CaptchaOutcome) : Response :=
  match b.serviceCode, b.idNumber with
  | some sc, some id =>
    if manualServiceCodeOk sc && manualIdOk id then
      if secret && tokenTruthy b.captchaToken then
        match cap with
        | CaptchaOutcome.err => Response.mk 500 false none none
        | CaptchaOutcome.ok success score =>
          if !success || scoreBelowHalf score then Response.mk 403 false none none
          else part000_lookup sc id
      else part000_lookup sc id
    else Response.mk 400 false none none
  | _, _ => Response.mk 400 false none none

/-- The `GET /api/leaves` handler of `part_000` lines 136-138: the store
returned as-is, no redaction. -/
def part000_get : Response :=
  Response.mk 200 true none (some (part000Leaves.map rawOut))

/-- True when no `idNumber` key occurs anywhere in a response body. -/
def respNoId (r : Response) : Bool :=
  (match r.record with
   | some o => o.idNumber == none
   | none => true)
  && (match r.leaves with
      | some os => os.all (fun o => o.idNumber == none)
      | none => true)

/-! ## Helper lemmas -/

/-- The score threshold constant is the literal 0.5 of the source. -/
theorem halfRat_eq_div : halfRat = (1 : ℚ) / 2 := by
  rw [halfRat, Rat.mkRat_eq_div]
  norm_num

/-- The Joi `serviceCode` rule and the manual regex accept the same
strings: Joi's implicit non-emptiness is subsumed by `min(8)`. -/
theorem joiServiceCodeOk_eq (s : String) : joiServiceCodeOk s = manualServiceCodeOk s := by
  by_cases hs : s = ""
  · subst hs
    decide
  · unfold joiServiceCodeOk manualServiceCodeOk
    have hbne : (s != "") = true := by simp [hs]
    rw [hbne, Bool.true_and]
    cases hall : s.toList.all isAlnum <;>
      cases h8 : (decide (8 ≤ s.length)) <;>
        cases h20 : (decide (s.length ≤ 20)) <;> simp

/-- The Joi `idNumber` rule and the manual regex accept the same strings. -/
theorem joiIdOk_eq (s : String) : joiIdOk s = manualIdOk s := by
  by_cases hs : s = ""
  · subst hs
    decide
  · unfold joiIdOk manualIdOk
    have hbne : (s != "") = true := by simp [hs]
    rw [hbne, Bool.true_and]

/-! ## Claim theorems -/

/-- C2: for every pair of date strings that both parse as valid calendar
dates with end ≥ start, the duration calculator returns the whole-day
difference plus one (and so does the `part_001` variant); in particular
`calcDays "2025-02-09" "2025-02-09" = 1` and
`calcDays "2025-02-09" "2025-02-24" = 16`. -/
theorem c2_duration_formula :
    (∀ s e ds de, parseDate s = some ds → parseDate e = some de → ds ≤ de →
      calcDays s e = (de : Int) - (ds : Int) + 1
        ∧ calcDays_part001 s e = some ((de : Int) - (ds : Int) + 1))
    ∧ calcDays "2025-02-09" "2025-02-09" = 1
    ∧ calcDays "2025-02-09" "2025-02-24" = 16 := by
  refine ⟨?_, by decide, by decide⟩
  intro s e ds de hs he hle
  constructor
  · unfold calcDays
    rw [hs, he]
    show (if de < ds then (0 : Int) else (de : Int) - (ds : Int) + 1)
      = (de : Int) - (ds : Int) + 1
    rw [if_neg (Nat.not_lt.mpr hle)]
  · unfold calcDays_part001
    rw [hs, he]

/-- C2 witness: the general formula instantiated at the seeded record's
dates, whose day indices are 885693 and 885708. -/
theorem c2_duration_formula_witness :
    calcDays "2025-02-09" "2025-02-24" = ((885708 : Nat) : Int) - ((885693 : Nat) : Int) + 1
    ∧ calcDays_part001 "2025-02-09" "2025-02-24"
        = some (((885708 : Nat) : Int) - ((885693 : Nat) : Int) + 1) :=
  c2_duration_formula.1 "2025-02-09" "2025-02-24" 885693 885708 (by decide) (by decide)
    (by decide)

/-- C3 counterexample: the claim quantifies over every iteration of the
server, but the `part_001` duration calculator returns -14 (not 0) on the
inverted pair and NaN (not 0) on an unparsable first argument. -/
theorem c3_counterexample :
    calcDays_part001 "2025-02-24" "2025-02-09" = some (-14)
    ∧ calcDays_part001 "abc" "2025-02-09" = none
    ∧ ¬ ((-14 : Int) = 0) := by
  refine ⟨by decide, by decide, by decide⟩

/-- C3 amended: the guarded calculator shared by `server.js`, `part_000`
and `part_002` returns 0 whenever either date fails to parse or the end
precedes the start; the `part_001` calculator instead returns a
non-positive count on inverted dates and NaN (`none`) on unparsable
input. -/
theorem c3_guarded_zero :
    (∀ s e, parseDate s = none ∨ parseDate e = none → calcDays s e = 0)
    ∧ (∀ s e ds de, parseDate s = some ds → parseDate e = some de → de < ds →
        calcDays s e = 0)
    ∧ (∀ s e ds de, parseDate s = some ds → parseDate e = some de → de < ds →
        calcDays_part001 s e = some ((de : Int) - (ds : Int) + 1)
          ∧ (de : Int) - (ds : Int) + 1 ≤ 0)
    ∧ (∀ s e, parseDate s = none ∨ parseDate e = none → calcDays_part001 s e = none) := by
  refine ⟨?_, ?_, ?_, ?_⟩
  · intro s e h
    unfold calcDays
    rcases h with h | h <;>
      rcases hs : parseDate s with _ | ds <;>
        rcases he : parseDate e with _ | de <;>
          simp_all
  · intro s e ds de hs he hlt
    unfold calcDays
    rw [hs, he]
    show (if de < ds then (0 : Int) else (de : Int) - (ds : Int) + 1) = 0
    rw [if_pos hlt]
  · intro s e ds de hs he hlt
    refine ⟨?_, by omega⟩
    unfold calcDays_part001
    rw [hs, he]
  · intro s e h
    unfold calcDays_part001
    rcases h with h | h <;>
      rcases hs : parseDate s with _ | ds <;>
        rcases he : parseDate e with _ | de <;>
          simp_all

/-- C3 amended witness: the guarded calculator at a concrete inverted pair
and a concrete unparsable input. -/
theorem c3_guarded_zero_witness :
    calcDays "2025-02-24" "2025-02-09" = 0
    ∧ calcDays "abc" "2025-02-09" = 0 :=
  ⟨c3_guarded_zero.2.1 "2025-02-24" "2025-02-09" 885708 885693 (by decide) (by decide)
      (by decide),
    c3_guarded_zero.1 "abc" "2025-02-09" (Or.inl (by decide))⟩

/-- C5: both the Joi schema and the manual regex validator reject a
`serviceCode` of length 7 or 21 and accept alphanumeric codes of length 8
and 20; both reject the 11-digit `idNumber` "12345678901" and accept the
10-digit "1234567890". -/
theorem c5_boundaries :
    manualServiceCodeOk "ABCDEF7" = false ∧ joiServiceCodeOk "ABCDEF7" = false
    ∧ manualServiceCodeOk "ABCD1234" = true ∧ joiServiceCodeOk "ABCD1234" = true
    ∧ manualServiceCodeOk "ABCDEFGHIJ1234567890" = true
    ∧ joiServiceCodeOk "ABCDEFGHIJ1234567890" = true
    ∧ manualServiceCodeOk "ABCDEFGHIJ12345678901" = false
    ∧ joiServiceCodeOk "ABCDEFGHIJ12345678901" = false
    ∧ manualIdOk "12345678901" = false ∧ joiIdOk "12345678901" = false
    ∧ manualIdOk "1234567890" = true ∧ joiIdOk "1234567890" = true := by
  decide

/-- C8: in every iteration the store is exactly the raw list mapped
through the `days` augmentation, so each record's `days` equals its own
iteration's calculator applied to that record's dates; and on this data
even the `part_001` store's days coincide with the guarded inclusive
span. -/
theorem c8_days_recomputed :
    serverLeaves = serverRawLeaves.map augment
    ∧ part000Leaves = part000RawLeaves.map augment
    ∧ part002Leaves = part002RawLeaves.map augment
    ∧ part001Leaves = part001RawLeaves.map augment_part001
    ∧ (serverLeaves.all fun r => r.days == calcDays r.startDate r.endDate) = true
    ∧ (part000Leaves.all fun r => r.days == calcDays r.startDate r.endDate) = true
    ∧ (part002Leaves.all fun r => r.days == calcDays r.startDate r.endDate) = true
    ∧ (part001Leaves.all fun r => r.days == calcDays_part001 r.startDate r.endDate) = true
    ∧ (part001Leaves.all fun r => r.days == some (calcDays r.startDate r.endDate)) = true := by
  refine ⟨rfl, rfl, rfl, rfl, by decide, by decide, by decide, by decide, by decide⟩

/-- C9: the guarded duration calculator (shared by `server.js`, `part_000`
and `part_002`) is total and returns a non-negative integer on every pair
of strings. -/
theorem c9_calcDays_nonneg : ∀ s e, 0 ≤ calcDays s e := by
  intro s e
  unfold calcDays
  split
  · split
    · exact Int.le_refl 0
    · rename_i ds de h
      omega
  · exact Int.le_refl 0

/-- C1 counterexample: the claim quantifies over every iteration, but the
`part_000` listing returns the store unredacted, and its lookup response
for the seeded record carries the `idNumber` key as well. -/
theorem c1_counterexample :
    respNoId part000_get = false
    ∧ respNoId (part000_post false
        (ReqBody.mk (some "GSL25021372778") (some "1088576044") none)
        CaptchaOutcome.err) = false := by
  refine ⟨by decide, by decide⟩

/-- C1 amended: in the `server.js` iteration, no response of either
endpoint ever carries the `idNumber` key — the lookup strips it from a
matched record and the listing redacts every element; the unnamed
iterations return records with `idNumber` included. -/
theorem c1_server_redacts :
    (∀ secret b cap, respNoId (server_post secret b cap) = true)
    ∧ respNoId server_get = true := by
  refine ⟨?_, by decide⟩
  intro secret b cap
  rcases b with ⟨osc, oid, otok⟩
  cases osc <;> cases oid <;> cases otok <;> simp only [server_post]
  any_goals rfl
  split
  · split
    · split <;> rfl
    · rfl
  · rfl

/-- C4 counterexample: a body whose `serviceCode` and `idNumber` match the
canonical language but which omits `captchaToken` is accepted by the
manual-regex validator of `part_000`/`part_002` and rejected by the Joi
schema of `server.js`; a body whose `serviceCode` carries a leading space
is accepted by the express-validator chain of `part_001` (which trims
first) and rejected by both other iterations. -/
theorem c4_counterexample :
    manualAccepts (ReqBody.mk (some "GSL25021372778") (some "1088576044") none) = true
    ∧ joiAccepts (ReqBody.mk (some "GSL25021372778") (some "1088576044") none) = false
    ∧ evAccepts (ReqBody.mk (some " GSL25021372778") (some "1088576044") (some "t")) = true
    ∧ manualAccepts (ReqBody.mk (some " GSL25021372778") (some "1088576044") (some "t")) = false
    ∧ joiAccepts (ReqBody.mk (some " GSL25021372778") (some "1088576044") (some "t")) = false := by
  refine ⟨by decide, by decide, by decide, by decide, by decide⟩

/-- C4 amended: the manual-regex validator accepts exactly the canonical
language on `serviceCode`/`idNumber`; the Joi schema accepts exactly the
canonical bodies that additionally carry a non-empty string
`captchaToken`; and the express-validator chain of `part_001`, which trims
its fields first, accepts bodies outside the canonical language — so the
three iterations do not accept the same set of request bodies. -/
theorem c4_validator_relationship :
    (∀ b, manualAccepts b = canonicalAccepts b)
    ∧ (∀ b, joiAccepts b = (canonicalAccepts b && joiCaptchaOk b.captchaToken))
    ∧ evAccepts (ReqBody.mk (some " GSL25021372778") (some "1088576044") (some "t")) = true
    ∧ canonicalAccepts (ReqBody.mk (some " GSL25021372778") (some "1088576044") (some "t"))
        = false := by
  refine ⟨?_, ?_, by decide, by decide⟩
  · intro b
    rcases b with ⟨osc, oid, otok⟩
    cases osc <;> cases oid <;> rfl
  · intro b
    rcases b with ⟨osc, oid, otok⟩
    cases osc <;> cases oid <;> cases otok <;>
      simp [joiAccepts, canonicalAccepts, manualServiceCodeOk, manualIdOk, joiCaptchaOk,
        joiServiceCodeOk_eq, joiIdOk_eq, Bool.and_assoc]

/-- C6 counterexample: in `part_000`, with a secret configured and a truthy
token supplied, a rejected verification promise (network error or timeout)
is answered with 500, not 403. -/
theorem c6_counterexample :
    (part000_post true (ReqBody.mk (some "GSL25021372778") (some "1088576044") (some "tok"))
        CaptchaOutcome.err).status = 500
    ∧ (part000_post true (ReqBody.mk (some "GSL25021372778") (some "1088576044") (some "tok"))
        CaptchaOutcome.err).status ≠ 403 := by
  refine ⟨by decide, by decide⟩

/-- C6 amended: in `server.js`, with a secret configured, every
verification failure — rejected call, `success: false`, or a missing
score — yields the 403 response for a Joi-valid body; in `part_000` a
rejected token or low score also yields 403, but a rejected verification
call yields 500 instead. -/
theorem c6_verification_failures :
    (∀ sc id tok cap,
      (joiServiceCodeOk sc && joiIdOk id && joiCaptchaOk (some tok)) = true →
      verifyCaptcha true cap = false →
      (server_post true (ReqBody.mk (some sc) (some id) (some tok)) cap).status = 403)
    ∧ verifyCaptcha true CaptchaOutcome.err = false
    ∧ (∀ score, verifyCaptcha true (CaptchaOutcome.ok false score) = false)
    ∧ (∀ success, verifyCaptcha true (CaptchaOutcome.ok success none) = false)
    ∧ (∀ sc id tok, (manualServiceCodeOk sc && manualIdOk id) = true →
        tokenTruthy tok = true →
        (part000_post true (ReqBody.mk (some sc) (some id) tok) CaptchaOutcome.err).status
          = 500) := by
  refine ⟨?_, rfl, ?_, ?_, ?_⟩
  · intro sc id tok cap hval hver
    simp [server_post, hval, hver]
  · intro score
    simp [verifyCaptcha]
  · intro success
    simp [verifyCaptcha, scoreAtLeastHalf]
  · intro sc id tok hval htok
    simp [part000_post, hval, htok]

/-- C6 amended witness: a Joi-valid request against `server.js` with a
rejected verification call is answered 403, while the same request against
`part_000` is answered 500. -/
theorem c6_verification_failures_witness :
    (server_post true (ReqBody.mk (some "GSL25021372778") (some "1088576044") (some "tok"))
        CaptchaOutcome.err).status = 403
    ∧ (part000_post true (ReqBody.mk (some "GSL25021372778") (some "1088576044") (some "tok"))
        CaptchaOutcome.err).status = 500 :=
  ⟨c6_verification_failures.1 "GSL25021372778" "1088576044" "tok" CaptchaOutcome.err
      (by decide) (by decide),
    c6_verification_failures.2.2.2.2 "GSL25021372778" "1088576044" (some "tok")
      (by decide) (by decide)⟩

/-- C7: the lookup matches a record exactly when both `serviceCode` and
`idNumber` are string-equal to the record's fields; a lookup that matches
no record — in particular a correct `serviceCode` with a wrong
`idNumber` — is answered 404 for any Joi-valid body whose verification
succeeds. -/
theorem c7_exact_match :
    (∀ sc id r, findOne serverLeaves sc id = some r →
      r ∈ serverLeaves ∧ r.serviceCode = sc ∧ r.idNumber = id)
    ∧ (∀ sc id, findOne serverLeaves sc id = none ↔
        ∀ l ∈ serverLeaves, ¬ (l.serviceCode = sc ∧ l.idNumber = id))
    ∧ (∀ sc id tok cap,
        (joiServiceCodeOk sc && joiIdOk id && joiCaptchaOk (some tok)) = true →
        verifyCaptcha true cap = true →
        findOne serverLeaves sc id = none →
        (server_post true (ReqBody.mk (some sc) (some id) (some tok)) cap).status = 404) := by
  refine ⟨?_, ?_, ?_⟩
  · intro sc id r h
    have hm := List.mem_of_find?_eq_some h
    have hp := List.find?_some h
    simp only [Bool.and_eq_true, beq_iff_eq] at hp
    exact ⟨hm, hp.1, hp.2⟩
  · intro sc id
    unfold findOne
    rw [List.find?_eq_none]
    constructor
    · intro h l hl hc
      have hpl := h l hl
      simp [hc.1, hc.2] at hpl
    · intro h l hl hcontra
      simp only [Bool.and_eq_true, beq_iff_eq] at hcontra
      exact h l hl hcontra
  · intro sc id tok cap hval hver hnone
    simp [server_post, hval, hver, hnone]

/-- C7 witness: the seeded `serviceCode` paired with a wrong ten-digit
`idNumber` matches no record and is answered 404. -/
theorem c7_exact_match_witness :
    (server_post true (ReqBody.mk (some "GSL25021372778") (some "0000000000") (some "tok"))
      (CaptchaOutcome.ok true (some 1))).status = 404 :=
  c7_exact_match.2.2 "GSL25021372778" "0000000000" "tok" (CaptchaOutcome.ok true (some 1))
    (by decide) (by decide) (by decide)

/-- C10: in `part_000`, when a secret is configured but the body carries no
truthy `captchaToken`, the verification step is skipped — for a valid
`serviceCode`/`idNumber` pair the response is exactly the lookup outcome,
a 200 or a 404, never a 403, whatever the verification call would have
returned. -/
theorem c10_captcha_skipped :
    ∀ sc id cap tok, (manualServiceCodeOk sc && manualIdOk id) = true →
      tokenTruthy tok = false →
      part000_post true (ReqBody.mk (some sc) (some id) tok) cap = part000_lookup sc id
      ∧ ((part000_lookup sc id).status = 200 ∨ (part000_lookup sc id).status = 404) := by
  intro sc id cap tok hval htok
  constructor
  · simp [part000_post, hval, htok]
  · unfold part000_lookup
    rcases hf : findOne part000Leaves sc id with _ | r <;> simp [hf]

/-- C10 witness: the seeded pair without any `captchaToken`, with the
verification call poised to fail, still reaches the lookup. -/
theorem c10_captcha_skipped_witness :
    part000_post true (ReqBody.mk (some "GSL25021372778") (some "1088576044") none)
        CaptchaOutcome.err = part000_lookup "GSL25021372778" "1088576044"
    ∧ ((part000_lookup "GSL25021372778" "1088576044").status = 200
        ∨ (part000_lookup "GSL25021372778" "1088576044").status = 404) :=
  c10_captcha_skipped "GSL25021372778" "1088576044" CaptchaOutcome.err none
    (by decide) (by decide)

end Hdilg
